import Mathlib

/-!
Verification development for the dirtysats mining fleet manager.

Shallow embedding of the thermal-management, pool-accounting, energy-rate,
alerting and orchestration logic of the repository, with theorems settling
the specification claims.  Python floats are modelled as exact rationals,
Python ints as Lean integers, and wall-clock times as rational numbers of
seconds (or minutes where the source works on HH:MM strings).
-/

namespace DirtySats

/-- Python int() conversion applied to an exact rational: truncation toward zero. -/
def pyInt (q : ℚ) : Int := if 0 ≤ q then ⌊q⌋ else ⌈q⌉

/-- Lookup in a Python dict literal, given as the ordered list of its written
entries: a later entry with the same key silently overwrites an earlier one,
exactly as a Python dict literal behaves, so the fold keeps the last match. -/
def dictGet {α : Type} (entries : List (String × α)) (key : String) : Option α :=
  entries.foldl (fun acc e => if e.1 = key then some e.2 else acc) none

/-- FrequencyProfile dataclass from thermal.py: frequency and temperature
profile for a miner type (frequencies in MHz, temperatures in Celsius). -/
structure FrequencyProfile where
  min_freq : Int
  max_freq : Int
  stock_freq : Int
  optimal_temp : ℚ
  warning_temp : ℚ
  critical_temp : ℚ
  max_chip_temp : ℚ
  temp_hysteresis : ℚ
  freq_step : Int
deriving DecidableEq

instance : Inhabited FrequencyProfile :=
  ⟨⟨0, 0, 0, 0, 0, 0, 0, 0, 0⟩⟩

/-- MINER_PROFILES from thermal.py, written as the ordered list of entries of
the source dict literal.  The source writes the keys Antminer, Whatsminer,
Avalon and Unknown twice with different numbers; both occurrences are kept
here in source order, and dictGet resolves duplicates the way Python does
(the later entry wins). -/
def MINER_PROFILES : List (String × FrequencyProfile) := [
  ("BitAxe",      ⟨400, 600, 485, 55, 62, 68, 75, 2, 15⟩),
  ("BitAxeMax",   ⟨400, 600, 485, 55, 62, 68, 75, 2, 15⟩),
  ("BitAxeUltra", ⟨400, 650, 490, 55, 62, 68, 75, 2, 15⟩),
  ("BitAxeSupra", ⟨400, 700, 490, 55, 63, 69, 75, 2, 15⟩),
  ("BitAxeGamma", ⟨400, 750, 525, 55, 63, 70, 75, 2, 15⟩),
  ("NerdAxe",     ⟨400, 650, 490, 55, 62, 68, 75, 2, 15⟩),
  ("BitAxeHex",   ⟨400, 625, 500, 52, 60, 68, 75, 2, 15⟩),
  ("NerdQAxe",    ⟨400, 625, 485, 55, 63, 70, 75, 2, 15⟩),
  ("NerdQAxePP",  ⟨400, 650, 490, 55, 63, 70, 75, 2, 15⟩),
  ("NerdOctaxe",  ⟨400, 625, 500, 55, 62, 68, 70, 2, 15⟩),
  ("LuckyMiner",  ⟨400, 650, 490, 55, 62, 68, 75, 2, 15⟩),
  ("Antminer",    ⟨550, 700, 650, 70, 80, 85, 95, 3, 25⟩),
  ("Whatsminer",  ⟨400, 650, 550, 65, 75, 80, 85, 3, 25⟩),
  ("Avalon",      ⟨400, 650, 550, 65, 75, 80, 85, 3, 25⟩),
  ("Unknown",     ⟨400, 550, 475, 55, 62, 68, 75, 2, 10⟩),
  ("Antminer",    ⟨400, 650, 550, 65, 75, 80, 85, 3, 25⟩),
  ("Whatsminer",  ⟨400, 650, 550, 65, 75, 80, 85, 3, 25⟩),
  ("Avalon",      ⟨400, 650, 550, 65, 75, 80, 85, 3, 25⟩),
  ("Unknown",     ⟨400, 500, 450, 60, 65, 70, 75, 2, 10⟩)
]

/-- MINER_PROFILES.get(profile_key, MINER_PROFILES[ "Unknown" ]) from
thermal.py: profile lookup with the Unknown profile as fallback.  The inner
getD default is unreachable because the dict does contain an Unknown key. -/
def minerProfilesGet (key : String) : FrequencyProfile :=
  (dictGet MINER_PROFILES key).getD ((dictGet MINER_PROFILES "Unknown").getD default)

/-- Reason tag for the third component of the tuple returned by
ThermalManager.calculate_optimal_frequency, one constructor per distinct
reason string produced by the source. -/
inductive ThermalReason where
  | emergencyCooldown
  | emergencyCritical
  | autoTuneDisabled
  | tooSoon
  | warningReduce
  | aboveOptimalFanUp
  | aboveOptimalReduce
  | belowOptimalFanDown
  | belowOptimalIncrease
  | belowOptimalAtMax
  | belowOptimalRising
  | optimalRange
deriving DecidableEq

/-- ThermalState from thermal.py: per-miner thermal tracking state.  Times
are rationals in seconds; the temperature and hashrate history lists and the
ip and type strings play no role in the control decisions studied here. -/
structure ThermalState where
  profile : FrequencyProfile
  current_freq : Int
  current_temp : ℚ
  last_temp : ℚ
  temp_trend : ℚ
  current_fan_speed : Int
  min_fan_speed : Int
  max_fan_speed : Int
  fan_step : Int
  in_emergency_cooldown : Bool
  cooldown_started : Option ℚ
  auto_tune_enabled : Bool
  last_adjustment : Option ℚ
deriving DecidableEq

/-- cooldown_duration = timedelta(minutes=10), in seconds. -/
def cooldownDuration : ℚ := 600

/-- adjustment_interval = timedelta(seconds=30), in seconds. -/
def adjustmentInterval : ℚ := 30

/-- ThermalState.check_emergency_cooldown from thermal.py, with the mutation
of self made explicit: returns the boolean result together with the updated
state.  The source never reaches the case where the flag is set but no start
time is stamped (the two are always set together); the embedding returns
false there. -/
def check_emergency_cooldown (now : ℚ) (st : ThermalState) : Bool × ThermalState :=
  if st.in_emergency_cooldown = false then (false, st)
  else
    match st.cooldown_started with
    | none => (false, st)
    | some t0 =>
      if now - t0 ≥ cooldownDuration then
        (false, { st with in_emergency_cooldown := false, cooldown_started := none })
      else
        (true, st)

/-- ThermalState.trigger_emergency_shutdown from thermal.py: enter cooldown,
stamp the start time, and shut the frequency down to 0. -/
def trigger_emergency_shutdown (now : ℚ) (st : ThermalState) : ThermalState :=
  { st with in_emergency_cooldown := true, cooldown_started := some now, current_freq := 0 }

/-- ThermalState.can_adjust_frequency from thermal.py. -/
def can_adjust_frequency (now : ℚ) (st : ThermalState) : Bool :=
  match st.last_adjustment with
  | none => true
  | some t => decide (now - t ≥ adjustmentInterval)

/-- Result of calculate_optimal_frequency: the updated thermal state plus the
returned (target_frequency, target_fan_speed, reason) tuple. -/
structure CalcResult where
  state : ThermalState
  freq : Int
  fan : Option Int
  reason : ThermalReason
deriving DecidableEq

/-- Temperature-band evaluation block of calculate_optimal_frequency
(the fan-priority adjustment logic), returning the
(target_freq, target_fan, reason) triple it computes from the current state. -/
def band_adjustment (st : ThermalState) : Int × Int × ThermalReason :=
  let p := st.profile
  let current_freq := st.current_freq
  let current_temp := st.current_temp
  let current_fan := st.current_fan_speed
  if current_temp ≥ p.warning_temp then
    (max p.min_freq (current_freq - p.freq_step * 2), st.max_fan_speed,
     .warningReduce)
  else if current_temp > p.optimal_temp + p.temp_hysteresis then
    if current_fan < st.max_fan_speed then
      (current_freq, min st.max_fan_speed (current_fan + st.fan_step),
       .aboveOptimalFanUp)
    else
      (max p.min_freq (current_freq - p.freq_step), current_fan,
       .aboveOptimalReduce)
  else if current_temp < p.optimal_temp - p.temp_hysteresis then
    if st.temp_trend ≤ 1 then
      if current_fan > st.min_fan_speed + 10 then
        (current_freq, max st.min_fan_speed (current_fan - st.fan_step),
         .belowOptimalFanDown)
      else if current_freq < p.max_freq then
        (min p.max_freq (current_freq + p.freq_step), current_fan,
         .belowOptimalIncrease)
      else
        (current_freq, current_fan, .belowOptimalAtMax)
    else
      (current_freq, current_fan, .belowOptimalRising)
  else
    (current_freq, current_fan, .optimalRange)

/-- ThermalManager.calculate_optimal_frequency from thermal.py, for a
registered miner (the miner-not-registered early return is a dictionary
lookup outside the control logic studied here).  The first argument is the
global_auto_tune_enabled flag of the manager; state mutation is explicit. -/
def calculate_optimal_frequency (global_auto_tune : Bool) (now : ℚ)
    (st0 : ThermalState) : CalcResult :=
  let chk := check_emergency_cooldown now st0
  if chk.1 then
    ⟨chk.2, 0, some 100, .emergencyCooldown⟩
  else
    let st := chk.2
    let p := st.profile
    if st.current_temp ≥ p.critical_temp then
      ⟨trigger_emergency_shutdown now st, 0, some 100, .emergencyCritical⟩
    else if !st.auto_tune_enabled || !global_auto_tune then
      ⟨st, st.current_freq, none, .autoTuneDisabled⟩
    else if !can_adjust_frequency now st then
      ⟨st, st.current_freq, none, .tooSoon⟩
    else
      let tfr := band_adjustment st
      let target_freq := tfr.1
      let target_fan := tfr.2.1
      let reason := tfr.2.2
      let changed : Bool :=
        (target_freq != st.current_freq) || (target_fan != st.current_fan_speed)
      let st1 := { st with current_freq := target_freq, current_fan_speed := target_fan }
      let st2 := if changed then { st1 with last_adjustment := some now } else st1
      ⟨st2, target_freq,
       if target_fan != st.current_fan_speed then some target_fan else none, reason⟩

theorem band_adjustment_reason_ne_cooldown (st : ThermalState) :
    (band_adjustment st).2.2 ≠ ThermalReason.emergencyCooldown := by
  unfold band_adjustment
  simp only [apply_ite Prod.snd]
  split_ifs <;> simp

theorem calc_reason_ne_cooldown_of_not_flagged (g : Bool) (now : ℚ) (st : ThermalState)
    (h : st.in_emergency_cooldown = false) :
    (calculate_optimal_frequency g now st).reason ≠ ThermalReason.emergencyCooldown := by
  have hc : check_emergency_cooldown now st = (false, st) := by
    simp [check_emergency_cooldown, h]
  unfold calculate_optimal_frequency
  rw [hc]
  simp only [apply_ite CalcResult.reason]
  split_ifs <;> simp_all [band_adjustment_reason_ne_cooldown]

/-- C1: for a registered miner, a call of calculate_optimal_frequency with the
current temperature at or above the critical threshold of the profile returns
frequency 0 and fan 100 and puts the miner in emergency cooldown with the
start time stamped to the call time; any later call strictly within the
600-second cooldown returns frequency 0 and fan 100 whatever temperature the
state holds; once at least 600 seconds have elapsed the cooldown flag clears
and the call behaves exactly as on a state with no cooldown, so normal band
evaluation resumes. -/
theorem emergency_shutdown_and_cooldown_cycle (g : Bool) (now : ℚ) (st : ThermalState) :
    (st.in_emergency_cooldown = false →
      st.profile.critical_temp ≤ st.current_temp →
      (calculate_optimal_frequency g now st).freq = 0 ∧
      (calculate_optimal_frequency g now st).fan = some 100 ∧
      (calculate_optimal_frequency g now st).state.in_emergency_cooldown = true ∧
      (calculate_optimal_frequency g now st).state.cooldown_started = some now) ∧
    (∀ t0 : ℚ, st.in_emergency_cooldown = true → st.cooldown_started = some t0 →
      now - t0 < 600 →
      (calculate_optimal_frequency g now st).freq = 0 ∧
      (calculate_optimal_frequency g now st).fan = some 100 ∧
      (calculate_optimal_frequency g now st).state.in_emergency_cooldown = true) ∧
    (∀ t0 : ℚ, st.in_emergency_cooldown = true → st.cooldown_started = some t0 →
      600 ≤ now - t0 →
      calculate_optimal_frequency g now st =
        calculate_optimal_frequency g now
          { st with in_emergency_cooldown := false, cooldown_started := none } ∧
      (calculate_optimal_frequency g now st).reason ≠ ThermalReason.emergencyCooldown) := by
  refine ⟨?_, ?_, ?_⟩
  · intro h1 h2
    have hc : check_emergency_cooldown now st = (false, st) := by
      simp [check_emergency_cooldown, h1]
    unfold calculate_optimal_frequency
    rw [hc]
    simp [ge_iff_le, h2, trigger_emergency_shutdown]
  · intro t0 h1 h2 h3
    have hc : check_emergency_cooldown now st = (true, st) := by
      simp only [check_emergency_cooldown, h1, h2, cooldownDuration]
      rw [if_neg (by simp), if_neg (not_le.mpr h3)]
    unfold calculate_optimal_frequency
    rw [hc]
    simp [h1]
  · intro t0 h1 h2 h3
    have hc : check_emergency_cooldown now st =
        (false, { st with in_emergency_cooldown := false, cooldown_started := none }) := by
      simp only [check_emergency_cooldown, h1, h2, cooldownDuration]
      rw [if_neg (by simp), if_pos h3]
    have hc2 : check_emergency_cooldown now
        { st with in_emergency_cooldown := false, cooldown_started := none } =
        (false, { st with in_emergency_cooldown := false, cooldown_started := none }) := by
      simp [check_emergency_cooldown]
    have heq : calculate_optimal_frequency g now st =
        calculate_optimal_frequency g now
          { st with in_emergency_cooldown := false, cooldown_started := none } := by
      unfold calculate_optimal_frequency
      rw [hc, hc2]
    refine ⟨heq, ?_⟩
    rw [heq]
    exact calc_reason_ne_cooldown_of_not_flagged g now _ rfl

/-- Witness for C1: a concrete Antminer-profile state at 90 degrees triggers
the emergency path, a state 300 seconds into cooldown holds frequency 0 and
fan 100 even when fed a cool temperature, and a state 600 seconds in behaves
as a cooldown-free state again. -/
theorem emergency_shutdown_and_cooldown_cycle_witness :
    ((calculate_optimal_frequency true 0
        ⟨minerProfilesGet "Antminer", 650, 90, 0, 0, 50, 20, 100, 10, false, none, true, none⟩).freq = 0 ∧
     (calculate_optimal_frequency true 0
        ⟨minerProfilesGet "Antminer", 650, 90, 0, 0, 50, 20, 100, 10, false, none, true, none⟩).fan = some 100 ∧
     (calculate_optimal_frequency true 0
        ⟨minerProfilesGet "Antminer", 650, 90, 0, 0, 50, 20, 100, 10, false, none, true, none⟩).state.in_emergency_cooldown = true ∧
     (calculate_optimal_frequency true 0
        ⟨minerProfilesGet "Antminer", 650, 90, 0, 0, 50, 20, 100, 10, false, none, true, none⟩).state.cooldown_started = some 0) ∧
    ((calculate_optimal_frequency true 300
        ⟨minerProfilesGet "Antminer", 0, 20, 0, 0, 100, 20, 100, 10, true, some 0, true, none⟩).freq = 0 ∧
     (calculate_optimal_frequency true 300
        ⟨minerProfilesGet "Antminer", 0, 20, 0, 0, 100, 20, 100, 10, true, some 0, true, none⟩).fan = some 100 ∧
     (calculate_optimal_frequency true 300
        ⟨minerProfilesGet "Antminer", 0, 20, 0, 0, 100, 20, 100, 10, true, some 0, true, none⟩).state.in_emergency_cooldown = true) ∧
    (calculate_optimal_frequency true 600
        ⟨minerProfilesGet "Antminer", 0, 20, 0, 0, 100, 20, 100, 10, true, some 0, true, none⟩ =
      calculate_optimal_frequency true 600
        ⟨minerProfilesGet "Antminer", 0, 20, 0, 0, 100, 20, 100, 10, false, none, true, none⟩ ∧
     (calculate_optimal_frequency true 600
        ⟨minerProfilesGet "Antminer", 0, 20, 0, 0, 100, 20, 100, 10, true, some 0, true, none⟩).reason ≠
       ThermalReason.emergencyCooldown) :=
  ⟨(emergency_shutdown_and_cooldown_cycle true 0
      ⟨minerProfilesGet "Antminer", 650, 90, 0, 0, 50, 20, 100, 10, false, none, true, none⟩).1
        rfl (by decide),
   (emergency_shutdown_and_cooldown_cycle true 300
      ⟨minerProfilesGet "Antminer", 0, 20, 0, 0, 100, 20, 100, 10, true, some 0, true, none⟩).2.1
        0 rfl rfl (by norm_num),
   (emergency_shutdown_and_cooldown_cycle true 600
      ⟨minerProfilesGet "Antminer", 0, 20, 0, 0, 100, 20, 100, 10, true, some 0, true, none⟩).2.2
        0 rfl rfl (by norm_num)⟩

/-- C2 counterexample: the profile the running system uses for the Antminer
key is not the first-block row (550, 700, 650, 70, 80, 85, 95, 3, 25) that
the claim asserts; for instance its max frequency is 650 and its stock
frequency is 550, because the later duplicate dict entry overwrites the
earlier one at initialization. -/
theorem antminer_profile_first_block_counterexample :
    minerProfilesGet "Antminer" ≠ ⟨550, 700, 650, 70, 80, 85, 95, 3, 25⟩ ∧
    (minerProfilesGet "Antminer").max_freq = 650 ∧
    (minerProfilesGet "Antminer").stock_freq = 550 := by decide

/-- C2 amended: the FrequencyProfile used at runtime for the Antminer
thermal-profile key is the second (winning) definition: min 400, max 650,
stock 550, optimal 65, warning 75, critical 80, max-chip 85, hysteresis 3,
step 25. -/
theorem antminer_profile_runtime_values :
    minerProfilesGet "Antminer" = ⟨400, 650, 550, 65, 75, 80, 85, 3, 25⟩ := by decide

/-- Method tag for the method string of the dict returned by
PoolManager.calculate_sats_from_shares, one constructor per source string. -/
inductive SatsMethod where
  | zeroShares
  | soloMining
  | pplnsExpectedValue
  | fppsCalculation
  | ppsCalculation
  | tidesCalculation
  | genericCalculation
deriving DecidableEq

/-- Result dict of calculate_sats_from_shares (the free-text notes field is
not modelled). -/
structure SatsResult where
  sats : Int
  confidence : Int
  method : SatsMethod
deriving DecidableEq

/-- Python str.upper() for the ASCII strings this system compares, written
over the character list so that it evaluates by kernel reduction. -/
def pyUpper (s : String) : String := String.mk (s.data.map Char.toUpper)

/-- Python truthiness of a string: true when non-empty. -/
def pyTruthy (s : String) : Bool := !s.data.isEmpty

/-- Guarded pool-type test pattern of pool_manager.py, of the shape
pool_type and pool_type.upper() in names: a missing value and the empty
string are falsy in Python, so they fail every such test. -/
def poolTypeIs (pt : Option String) (names : List String) : Bool :=
  match pt with
  | none => false
  | some s => pyTruthy s && decide (pyUpper s ∈ names)

/-- PoolManager.calculate_sats_from_shares from pool_manager.py.  The
network_difficulty argument is accepted and never read by the source, so it
is omitted; shares_per_block is the same expression in every payout branch
and is hoisted into one let. -/
def calculate_sats_from_shares (shares_accepted : Int)
    (pool_difficulty : Option ℚ) (pool_fee_percent : Option ℚ)
    (pool_type : Option String) : SatsResult :=
  if shares_accepted ≤ 0 then
    ⟨0, 100, .zeroShares⟩
  else
    let block_reward_sats : Int := pyInt ((3.125 : ℚ) * 100000000)
    let d := pool_difficulty.getD 5000
    let confidence0 : Int := if pool_difficulty.isSome then 90 else 60
    let fee := pool_fee_percent.getD (2.5 : ℚ)
    let confidence : Int :=
      if pool_fee_percent.isSome then confidence0 else min confidence0 70
    if poolTypeIs pool_type ["SOLO"] then
      ⟨0, 0, .soloMining⟩
    else
      let shares_per_block : ℚ := 2 ^ 32 * d
      let share_value_sats : ℚ := (block_reward_sats : ℚ) / shares_per_block
      let gross_sats : ℚ := (shares_accepted : ℚ) * share_value_sats
      let net_sats : ℚ := gross_sats * (1 - fee / 100)
      if poolTypeIs pool_type ["PPLNS", "PROP"] then
        ⟨pyInt net_sats, 50, .pplnsExpectedValue⟩
      else if poolTypeIs pool_type ["FPPS+", "FPPS"] then
        ⟨pyInt net_sats, confidence, .fppsCalculation⟩
      else if poolTypeIs pool_type ["PPS"] then
        ⟨pyInt net_sats, confidence, .ppsCalculation⟩
      else if poolTypeIs pool_type ["TIDES"] then
        ⟨pyInt net_sats, confidence, .tidesCalculation⟩
      else
        ⟨pyInt net_sats, max 50 (confidence - 20), .genericCalculation⟩

/-- Expected-sats formula exactly as the specification words it:
int(shares x (3.125 x 100,000,000 / (2 to the 32 x pool_difficulty)) x
(1 - fee/100)). -/
def specSatsFormula (shares : Int) (difficulty fee : ℚ) : Int :=
  pyInt ((shares : ℚ) * ((3.125 : ℚ) * 100000000 / (2 ^ 32 * difficulty)) * (1 - fee / 100))

/-- Confidence rule as the specification words it for the named non-solo
payout types: 90 when the difficulty was supplied, else 60, capped at 70
when the fee was defaulted. -/
def specConfidence (dSupplied fSupplied : Bool) : Int :=
  let base : Int := if dSupplied then 90 else 60
  if fSupplied then base else min base 70

theorem poolTypeIs_mono (pt : Option String) (names names2 : List String)
    (hsub : ∀ x ∈ names, x ∈ names2)
    (hfalse : poolTypeIs pt names2 = false) : poolTypeIs pt names = false := by
  cases pt with
  | none => rfl
  | some str =>
    simp only [poolTypeIs, Bool.and_eq_false_iff, decide_eq_false_iff_not] at hfalse ⊢
    rcases hfalse with he | hm
    · exact Or.inl he
    · exact Or.inr fun hx => hm (hsub _ hx)

theorem pyInt_block_reward_cast :
    ((pyInt ((3.125 : ℚ) * 100000000) : Int) : ℚ) = (3.125 : ℚ) * 100000000 := by
  norm_num [pyInt]

/-- C10: calculate_sats_from_shares with a non-positive accepted-share count
returns exactly 0 sats with confidence 100 and the zero-shares method,
whatever the difficulty, fee and pool-type arguments are. -/
theorem zero_shares_short_circuit (s : Int) (dq fq : Option ℚ) (pt : Option String)
    (h : s ≤ 0) :
    calculate_sats_from_shares s dq fq pt = ⟨0, 100, SatsMethod.zeroShares⟩ := by
  unfold calculate_sats_from_shares
  rw [if_pos h]

/-- Witness for C10 at shares 0 with every other argument supplied. -/
theorem zero_shares_short_circuit_witness :
    calculate_sats_from_shares 0 (some 8192) (some 4) (some "FPPS") =
      ⟨0, 100, SatsMethod.zeroShares⟩ :=
  zero_shares_short_circuit 0 (some 8192) (some 4) (some "FPPS") (by decide)

/-- C3 counterexample: with positive shares, a supplied difficulty, a
supplied fee and the unknown pool type SCORE, the returned confidence is 70,
not the 90 the claim asserts for a supplied difficulty (the source subtracts
20 and floors at 50 for unknown pool types). -/
theorem sats_confidence_unknown_counterexample :
    (calculate_sats_from_shares 1 (some 5000) (some (2.5 : ℚ)) (some "SCORE")).confidence = 70 ∧
    (calculate_sats_from_shares 1 (some 5000) (some (2.5 : ℚ)) (some "SCORE")).confidence ≠ 90 := by
  constructor <;> decide

/-- C3 amended: with positive shares, for the FPPS, FPPS+, PPS and TIDES
pool types the returned sats follow the expected-value formula of the
specification and the confidence is 90 for a supplied difficulty, 60 for a
defaulted one, capped at 70 when the fee was defaulted; for an unknown pool
type (anything outside SOLO, PPLNS, PROP and the four named types, including
a missing type) the sats follow the same formula but the confidence is that
same value lowered by 20 and floored at 50. -/
theorem sats_formula_and_confidence (s : Int) (dq fq : Option ℚ) (pt : Option String)
    (hs : 0 < s) :
    (poolTypeIs pt ["FPPS+", "FPPS", "PPS", "TIDES"] = true →
      (calculate_sats_from_shares s dq fq pt).sats =
        specSatsFormula s (dq.getD 5000) (fq.getD (2.5 : ℚ)) ∧
      (calculate_sats_from_shares s dq fq pt).confidence =
        specConfidence dq.isSome fq.isSome) ∧
    (poolTypeIs pt ["SOLO", "PPLNS", "PROP", "FPPS+", "FPPS", "PPS", "TIDES"] = false →
      (calculate_sats_from_shares s dq fq pt).sats =
        specSatsFormula s (dq.getD 5000) (fq.getD (2.5 : ℚ)) ∧
      (calculate_sats_from_shares s dq fq pt).confidence =
        max 50 (specConfidence dq.isSome fq.isSome - 20)) := by
  constructor
  · intro hmem
    obtain ⟨str, rfl⟩ : ∃ strv, pt = some strv := by
      cases pt
      · simp [poolTypeIs] at hmem
      · exact ⟨_, rfl⟩
    simp only [poolTypeIs, Bool.and_eq_true, decide_eq_true_eq] at hmem
    obtain ⟨hne, hU⟩ := hmem
    simp only [List.mem_cons, List.not_mem_nil, or_false] at hU
    have hSolo : poolTypeIs (some str) ["SOLO"] = false := by
      simp only [poolTypeIs, Bool.and_eq_false_iff, decide_eq_false_iff_not]
      rcases hU with h | h | h | h <;> simp [h]
    have hPplns : poolTypeIs (some str) ["PPLNS", "PROP"] = false := by
      simp only [poolTypeIs, Bool.and_eq_false_iff, decide_eq_false_iff_not]
      rcases hU with h | h | h | h <;> simp [h]
    unfold calculate_sats_from_shares
    rw [if_neg (not_le.mpr hs), if_neg (by rw [hSolo]; exact Bool.false_ne_true),
        if_neg (by rw [hPplns]; exact Bool.false_ne_true)]
    have hone : poolTypeIs (some str) ["FPPS+", "FPPS"] = true ∨
        (poolTypeIs (some str) ["FPPS+", "FPPS"] = false ∧
         poolTypeIs (some str) ["PPS"] = true) ∨
        (poolTypeIs (some str) ["FPPS+", "FPPS"] = false ∧
         poolTypeIs (some str) ["PPS"] = false ∧
         poolTypeIs (some str) ["TIDES"] = true) := by
      simp only [poolTypeIs, Bool.and_eq_true, Bool.and_eq_false_iff,
        decide_eq_true_eq, decide_eq_false_iff_not]
      rcases hU with h | h | h | h <;> simp [h, hne]
    rcases hone with h1 | ⟨h1, h2⟩ | ⟨h1, h2, h3⟩
    · rw [if_pos (by rw [h1])]
      refine ⟨?_, rfl⟩
      show pyInt _ = _
      unfold specSatsFormula
      rw [pyInt_block_reward_cast]
    · rw [if_neg (by rw [h1]; exact Bool.false_ne_true), if_pos (by rw [h2])]
      refine ⟨?_, rfl⟩
      show pyInt _ = _
      unfold specSatsFormula
      rw [pyInt_block_reward_cast]
    · rw [if_neg (by rw [h1]; exact Bool.false_ne_true),
          if_neg (by rw [h2]; exact Bool.false_ne_true), if_pos (by rw [h3])]
      refine ⟨?_, rfl⟩
      show pyInt _ = _
      unfold specSatsFormula
      rw [pyInt_block_reward_cast]
  · intro hnone
    have hSolo : poolTypeIs pt ["SOLO"] = false :=
      poolTypeIs_mono pt _ _ (by intro x hx; fin_cases hx; all_goals simp) hnone
    have hPplns : poolTypeIs pt ["PPLNS", "PROP"] = false :=
      poolTypeIs_mono pt _ _ (by intro x hx; fin_cases hx; all_goals simp) hnone
    have hF : poolTypeIs pt ["FPPS+", "FPPS"] = false :=
      poolTypeIs_mono pt _ _ (by intro x hx; fin_cases hx; all_goals simp) hnone
    have hP : poolTypeIs pt ["PPS"] = false :=
      poolTypeIs_mono pt _ _ (by intro x hx; fin_cases hx; all_goals simp) hnone
    have hT : poolTypeIs pt ["TIDES"] = false :=
      poolTypeIs_mono pt _ _ (by intro x hx; fin_cases hx; all_goals simp) hnone
    unfold calculate_sats_from_shares
    rw [if_neg (not_le.mpr hs), if_neg (by rw [hSolo]; exact Bool.false_ne_true),
        if_neg (by rw [hPplns]; exact Bool.false_ne_true),
        if_neg (by rw [hF]; exact Bool.false_ne_true),
        if_neg (by rw [hP]; exact Bool.false_ne_true),
        if_neg (by rw [hT]; exact Bool.false_ne_true)]
    refine ⟨?_, rfl⟩
    show pyInt _ = _
    unfold specSatsFormula
    rw [pyInt_block_reward_cast]

/-- Witness for C3: concrete evaluations through both branches of the
amended statement, at a supplied difficulty of 5000 and supplied fee 2.5
with pool type fpps, and at defaulted difficulty and fee with a missing
pool type. -/
theorem sats_formula_and_confidence_witness :
    ((calculate_sats_from_shares 1000 (some 5000) (some (2.5 : ℚ)) (some "fpps")).sats =
        specSatsFormula 1000 ((some (5000 : ℚ)).getD 5000) ((some (2.5 : ℚ)).getD (2.5 : ℚ)) ∧
     (calculate_sats_from_shares 1000 (some 5000) (some (2.5 : ℚ)) (some "fpps")).confidence =
        specConfidence (some (5000 : ℚ)).isSome (some (2.5 : ℚ)).isSome) ∧
    ((calculate_sats_from_shares 1000 none none none).sats =
        specSatsFormula 1000 ((none : Option ℚ).getD 5000) ((none : Option ℚ).getD (2.5 : ℚ)) ∧
     (calculate_sats_from_shares 1000 none none none).confidence =
        max 50 (specConfidence (none : Option ℚ).isSome (none : Option ℚ).isSome - 20)) :=
  ⟨(sats_formula_and_confidence 1000 (some 5000) (some (2.5 : ℚ)) (some "fpps")
      (by decide)).1 (by decide),
   (sats_formula_and_confidence 1000 none none none (by decide)).2 (by decide)⟩

/-- EnergyRateManager._time_in_range from energy.py, after the strptime
parsing step: a time of day HH:MM is its minute count since midnight, so the
string 23:59 is exactly minute 1439 and is the only well-formed string that
parses to it (the end-of-day special case compares the end string against
23:59).  Start inclusive, end exclusive except an end of exactly 23:59;
a start later than the end wraps across midnight. -/
def time_in_range (current start «end» : Nat) : Bool :=
  let end_is_eod := «end» = 1439
  if start ≤ «end» then
    if end_is_eod then decide (start ≤ current) && decide (current ≤ «end»)
    else decide (start ≤ current) && decide (current < «end»)
  else
    if end_is_eod then decide (current ≥ start) || decide (current ≤ «end»)
    else decide (current ≥ start) || decide (current < «end»)

/-- C4: the energy-rate window containment test is start-inclusive and
end-exclusive, except that an end of exactly 23:59 (minute 1439) is
inclusive, and a window whose start is later than its end wraps across
midnight; in particular 14:00 is inside 14:00-19:00 but not inside
00:00-14:00, 19:00 is outside a window ending at 19:00, and 23:59 is inside
a window ending at 23:59. -/
theorem time_window_containment (c s e : Nat) :
    (time_in_range c s e = true ↔
      (if s ≤ e then
        (if e = 1439 then s ≤ c ∧ c ≤ e else s ≤ c ∧ c < e)
       else (c ≥ s ∨ (if e = 1439 then c ≤ e else c < e)))) ∧
    time_in_range 840 0 840 = false ∧
    time_in_range 840 840 1140 = true ∧
    time_in_range 1140 840 1140 = false ∧
    time_in_range 1439 1320 1439 = true := by
  refine ⟨?_, by decide, by decide, by decide, by decide⟩
  unfold time_in_range
  by_cases h1 : s ≤ e <;> by_cases h2 : e = 1439 <;> simp [h1, h2]

/-- HALVING_INTERVAL constant of BitcoinDataFetcher in energy.py. -/
def HALVING_INTERVAL : Nat := 210000

/-- INITIAL_SUBSIDY constant of BitcoinDataFetcher in energy.py, in BTC. -/
def INITIAL_SUBSIDY : ℚ := 50

/-- BitcoinDataFetcher.get_halving_epoch from energy.py.  The first argument
stands for the result of the internal self.get_block_height() network fetch
(none when the height cannot be fetched at all), the second for the explicit
block_height argument. -/
def get_halving_epoch (fetched : Option Nat) (block_height : Option Nat) : Nat :=
  match block_height with
  | some h => h / HALVING_INTERVAL
  | none =>
    match fetched with
    | some h => h / HALVING_INTERVAL
    | none => 4

/-- BitcoinDataFetcher.get_block_subsidy from energy.py. -/
def get_block_subsidy (fetched : Option Nat) (block_height : Option Nat) : ℚ :=
  INITIAL_SUBSIDY / 2 ^ get_halving_epoch fetched block_height

/-- BitcoinDataFetcher.get_blocks_until_halving from energy.py
(0 when no height is given and none can be fetched). -/
def get_blocks_until_halving (fetched : Option Nat) (block_height : Option Nat) : Nat :=
  match block_height with
  | some h => (h / HALVING_INTERVAL + 1) * HALVING_INTERVAL - h
  | none =>
    match fetched with
    | some h => (h / HALVING_INTERVAL + 1) * HALVING_INTERVAL - h
    | none => 0

/-- C5: the halving epoch is the block height divided by 210000 rounding
down, the subsidy is 50 over 2 to the epoch, the blocks until the next
halving are (epoch+1) times 210000 minus the height; height 839999 gives
epoch 3 and subsidy 6.25, height 840000 gives epoch 4, subsidy 3.125 and
exactly 210000 blocks until halving; with no height available at all the
epoch defaults to 4. -/
theorem halving_math (fetched : Option Nat) (h : Nat) :
    get_halving_epoch fetched (some h) = h / 210000 ∧
    get_block_subsidy fetched (some h) = 50 / 2 ^ (h / 210000) ∧
    get_blocks_until_halving fetched (some h) = (h / 210000 + 1) * 210000 - h ∧
    get_halving_epoch none none = 4 ∧
    get_halving_epoch fetched (some 839999) = 3 ∧
    get_block_subsidy fetched (some 839999) = (6.25 : ℚ) ∧
    get_halving_epoch fetched (some 840000) = 4 ∧
    get_block_subsidy fetched (some 840000) = (3.125 : ℚ) ∧
    get_blocks_until_halving fetched (some 840000) = 210000 := by
  refine ⟨rfl, rfl, rfl, rfl, by norm_num [get_halving_epoch, HALVING_INTERVAL],
    ?_, by norm_num [get_halving_epoch, HALVING_INTERVAL], ?_,
    by norm_num [get_blocks_until_halving, HALVING_INTERVAL]⟩
  · show INITIAL_SUBSIDY / 2 ^ get_halving_epoch fetched (some 839999) = (6.25 : ℚ)
    norm_num [get_halving_epoch, HALVING_INTERVAL, INITIAL_SUBSIDY]
  · show INITIAL_SUBSIDY / 2 ^ get_halving_epoch fetched (some 840000) = (3.125 : ℚ)
    norm_num [get_halving_epoch, HALVING_INTERVAL, INITIAL_SUBSIDY]

/-- AlertLevel enum from alerts.py. -/
inductive AlertLevel where
  | info
  | warning
  | critical
  | emergency
deriving DecidableEq

/-- The slice of AlertConfig from alerts.py that send_alert consults.  The
quiet-hours bounds are minutes since midnight (parsed from HH:MM strings);
the cooldown is in seconds. -/
structure AlertConfig where
  enabled_alert_types : List (String × Bool)
  quiet_hours_enabled : Bool
  quiet_hours_start : Nat
  quiet_hours_end : Nat
  telegram_enabled : Bool
  alert_cooldown : ℚ
deriving DecidableEq

/-- AlertManager.is_in_quiet_hours from alerts.py, with the wall-clock HH:MM
reading passed in as minutes since midnight: start inclusive, end exclusive,
wrapping overnight when the start is later than the end. -/
def is_in_quiet_hours (cfg : AlertConfig) (nowMin : Nat) : Bool :=
  if !cfg.quiet_hours_enabled then false
  else
    let s := cfg.quiet_hours_start
    let e := cfg.quiet_hours_end
    if s ≤ e then decide (s ≤ nowMin) && decide (nowMin < e)
    else decide (nowMin ≥ s) || decide (nowMin < e)

/-- AlertManager.should_send_alert from alerts.py: the per-(type, miner)
cooldown gate; lastSent is the last_alerts entry stored for the key of this
alert, and the result is true when no entry exists or the cooldown has fully
elapsed. -/
def should_send_alert (cfg : AlertConfig) (nowSec : ℚ) (lastSent : Option ℚ) : Bool :=
  match lastSent with
  | none => true
  | some t => decide (nowSec - t ≥ cfg.alert_cooldown)

/-- Outcome of AlertManager.send_alert: whether the alert was written to the
alert-history store, and whether it proceeded to Telegram delivery
(delivery means the Telegram send is attempted, which requires the channel
to be enabled; the network result is outside the model). -/
structure SendOutcome where
  persisted : Bool
  delivered : Bool
deriving DecidableEq

/-- AlertManager.send_alert from alerts.py for an alert of the given type
key and severity level, at wall-clock minute nowMin (for the quiet-hours
comparison) and second nowSec (for the cooldown arithmetic), with the stored
cooldown entry for this alert key passed in as lastSent. -/
def send_alert (cfg : AlertConfig) (alertType : String) (level : AlertLevel)
    (nowMin : Nat) (nowSec : ℚ) (lastSent : Option ℚ) : SendOutcome :=
  if !((dictGet cfg.enabled_alert_types alertType).getD true) then
    ⟨false, false⟩
  else if (level != AlertLevel.emergency) && is_in_quiet_hours cfg nowMin then
    ⟨true, false⟩
  else if !should_send_alert cfg nowSec lastSent then
    ⟨false, false⟩
  else
    ⟨true, cfg.telegram_enabled⟩

/-- C7: for an enabled alert type, a non-emergency alert arriving inside the
quiet-hours window is persisted to history but not delivered, while an
emergency alert at the same moment bypasses quiet hours and proceeds to
delivery (delivered whenever the cooldown gate passes and the Telegram
channel is enabled). -/
theorem quiet_hours_suppress_but_persist (cfg : AlertConfig) (alertType : String)
    (level : AlertLevel) (nowMin : Nat) (nowSec : ℚ) (lastSent : Option ℚ)
    (henabled : (dictGet cfg.enabled_alert_types alertType).getD true = true) :
    (level ≠ AlertLevel.emergency → is_in_quiet_hours cfg nowMin = true →
      send_alert cfg alertType level nowMin nowSec lastSent =
        ⟨true, false⟩) ∧
    (level = AlertLevel.emergency → should_send_alert cfg nowSec lastSent = true →
      send_alert cfg alertType level nowMin nowSec lastSent =
        ⟨true, cfg.telegram_enabled⟩) := by
  constructor
  · intro hlev hq
    unfold send_alert
    rw [henabled]
    simp only [Bool.not_true, Bool.false_eq_true, if_false]
    rw [if_pos]
    simp [hq, bne_iff_ne, hlev]
  · intro hlev hcool
    subst hlev
    unfold send_alert
    rw [henabled]
    simp [hcool]

/-- Witness for C7: quiet hours 22:00 to 07:00 (minutes 1320 and 420), a
high-temperature alert at 23:00 (minute 1380) with no cooldown entry: the
warning-level alert is persisted and not delivered, the emergency-level
alert is delivered on the enabled Telegram channel. -/
theorem quiet_hours_suppress_but_persist_witness :
    (send_alert ⟨[("temperature_high", true)], true, 1320, 420, true, 900⟩
        "temperature_high" AlertLevel.warning 1380 50000 none =
      ⟨true, false⟩) ∧
    (send_alert ⟨[("temperature_high", true)], true, 1320, 420, true, 900⟩
        "temperature_high" AlertLevel.emergency 1380 50000 none =
      ⟨true, (⟨[("temperature_high", true)], true, 1320, 420, true, 900⟩ : AlertConfig).telegram_enabled⟩) :=
  ⟨(quiet_hours_suppress_but_persist ⟨[("temperature_high", true)], true, 1320, 420, true, 900⟩
      "temperature_high" AlertLevel.warning 1380 50000 none (by decide)).1
      (by decide) (by decide),
   (quiet_hours_suppress_but_persist ⟨[("temperature_high", true)], true, 1320, 420, true, 900⟩
      "temperature_high" AlertLevel.emergency 1380 50000 none (by decide)).2
      rfl rfl⟩

/-- Find the first occurrence of the literal segment seg in s and return the
remainder of s after it, scanning left to right as re.search does. -/
def findSeg (seg : List Char) : List Char → Option (List Char)
  | [] => if seg.isEmpty then some [] else none
  | c :: rest =>
    if seg.isPrefixOf (c :: rest) then some ((c :: rest).drop seg.length)
    else findSeg seg rest

/-- Unanchored regex search for the pattern class used by the pool table:
every pattern in POOL_PATTERNS is literal text interleaved with .* gaps (and
escaped dots), so re.search(pattern, s) holds exactly when the literal
segments occur in s left to right in order; leading and trailing .* are
vacuous for an unanchored search.  Leftmost matching of each segment in turn
is complete for this pattern class. -/
def segsMatch : List (List Char) → List Char → Bool
  | [], _ => true
  | seg :: rest, s =>
    match findSeg seg s with
    | none => false
    | some r => segsMatch rest r

/-- One entry of the POOL_PATTERNS table of pool_manager.py: each regex of
url_patterns is written as its list of literal segments (the text between
.* gaps, with escaped dots as plain dots). -/
structure PoolEntry where
  url_patterns : List (List String)
  fee_percent : ℚ
  pool_type : String
  default_port : Int
deriving DecidableEq

/-- POOL_PATTERNS from pool_manager.py, in source order, with each regex
replaced by its literal segments: for example stratum.*braiins\.com becomes
the segments stratum and braiins.com, and .*\.braiins\.com becomes the
single segment .braiins.com. -/
def POOL_PATTERNS : List (String × PoolEntry) := [
  ("Braiins Pool",     ⟨[["stratum", "braiins.com"], [".braiins.com"]], 2.5, "FPPS+", 3333⟩),
  ("Ocean",            ⟨[["ocean.xyz"], [".ocean.xyz"]], 2, "TIDES", 3334⟩),
  ("Public Pool",      ⟨[["public-pool.io"], ["pool.public-pool.io"]], 0, "SOLO", 21496⟩),
  ("Foundry USA",      ⟨[["foundry"], ["foundryusa"]], 0, "FPPS", 3333⟩),
  ("F2Pool",           ⟨[["f2pool.com"], ["stratum", ".f2pool.com"]], 2.5, "PPS+", 3333⟩),
  ("Slush Pool",       ⟨[["slushpool.com"], ["stratum", ".slushpool.com"]], 2, "Score", 3333⟩),
  ("AntPool",          ⟨[["antpool.com"], ["stratum", ".antpool.com"]], 2.5, "FPPS", 3333⟩),
  ("ViaBTC",           ⟨[["viabtc.com"], ["stratum", ".viabtc.com"]], 4, "PPS+", 3333⟩),
  ("Poolin",           ⟨[["poolin.com"], ["stratum", ".poolin.com"]], 2.5, "FPPS", 3333⟩),
  ("Luxor",            ⟨[["luxor.tech"], [".luxor.tech"]], 0, "FPPS", 3333⟩),
  ("BTC.com",          ⟨[["btc.com"], ["stratum", ".btc.com"]], 1.5, "FPPS", 3333⟩),
  ("MARA Pool",        ⟨[["mara", "pool"], ["marathondigital"]], 0, "FPPS", 3333⟩),
  ("Binance Pool",     ⟨[["binance", "pool"], ["pool.binance.com"]], 2.5, "FPPS", 3333⟩),
  ("Solo CK Pool",     ⟨[["solo.ckpool.org"], ["ckpool", "solo"]], 2, "SOLO", 3333⟩),
  ("Localhost (Solo)", ⟨[["localhost"], ["127.0.0.1"], ["192.168."], ["10."]], 0, "SOLO", 8332⟩),
  ("EMCD",             ⟨[["emcd.io"]], 1.5, "FPPS", 3333⟩),
  ("NiceHash",         ⟨[["nicehash.com"]], 2, "PPS", 3334⟩),
  ("Kano CKPool",      ⟨[["kano.is"]], 0.9, "PPLNS", 3333⟩),
  ("SpiderPool",       ⟨[["spiderpool.com"]], 2, "FPPS", 3333⟩),
  ("Rawpool",          ⟨[["rawpool.com"]], 3.5, "FPPS", 3333⟩),
  ("SigmaPool",        ⟨[["sigmapool.com"]], 1, "PPS+", 3333⟩),
  ("Mining Dutch",     ⟨[["mining-dutch.nl"]], 2, "PPLNS", 3333⟩),
  ("LuckPool",         ⟨[["luckpool.net"]], 1, "PPLNS", 3333⟩),
  ("CKPool",           ⟨[["pool.ckpool.org"]], 1, "PPLNS", 3333⟩),
  ("BitAxe Pool",      ⟨[["pool.bitaxe.org"]], 1, "PPLNS", 3333⟩),
  ("Zpool",            ⟨[["zpool.ca"]], 2, "PPS", 3333⟩),
  ("Cruxpool",         ⟨[["cruxpool.com"]], 1, "PPS", 3333⟩),
  ("TrustPool",        ⟨[["trustpool.cc"]], 1, "PPS+", 3333⟩),
  ("BitFuFu",          ⟨[["bitfufu.com"]], 2.5, "PPS+", 3333⟩),
  ("Hashlabs",         ⟨[["hashlabs.io"]], 2, "FPPS", 3333⟩),
  ("Solo Mining Pool", ⟨[["solomining.io"]], 2, "SOLO", 3333⟩),
  ("SoloPool.org",     ⟨[["solopool.org"]], 2, "SOLO", 3333⟩),
  ("Kryptex",          ⟨[["kryptex.network"]], 3, "PPS+", 3333⟩),
  ("DEMAND Pool",      ⟨[["dmnd.work"]], 0, "SOLO", 3333⟩),
  ("ECOS Pool",        ⟨[["ecos.am"]], 0.25, "FPPS", 3333⟩)
]

/-- True when some regex of the entry matches the (already lowercased) URL. -/
def entryMatches (e : PoolEntry) (url : List Char) : Bool :=
  e.url_patterns.any fun p => segsMatch (p.map String.data) url

/-- The two nested for loops of detect_pool_from_url: first entry in table
order with a matching pattern wins. -/
def find_pool_match (entries : List (String × PoolEntry)) (url : List Char) :
    Option (String × PoolEntry) :=
  match entries with
  | [] => none
  | (nm, e) :: rest =>
    if entryMatches e url then some (nm, e) else find_pool_match rest url

/-- Hostname extraction of detect_pool_from_url: the first position where
://  is followed by at least one character other than a colon or slash; the
captured group is the maximal such run.  When the regex finds nothing the
whole URL stands in for the hostname. -/
def host_after_scheme : List Char → Option (List Char)
  | [] => none
  | c :: rest =>
    if [':', '/', '/'].isPrefixOf (c :: rest) then
      match (c :: rest).drop 3 with
      | d :: tail =>
        if d ≠ ':' ∧ d ≠ '/' then some (d :: tail) else host_after_scheme rest
      | [] => host_after_scheme rest
    else host_after_scheme rest

/-- Hostname used for the synthesized Custom Pool display name. -/
def extract_hostname (url : List Char) : List Char :=
  match host_after_scheme url with
  | some rest => rest.takeWhile fun d => d ≠ ':' ∧ d ≠ '/'
  | none => url

/-- The dict detect_pool_from_url returns (the requires_configuration key is
absent on known pools, modelled as false). -/
structure PoolDetectResult where
  pool_name : String
  fee_percent : ℚ
  pool_type : String
  default_port : Int
  is_known : Bool
  requires_configuration : Bool
deriving DecidableEq

/-- PoolManager.detect_pool_from_url from pool_manager.py over the character
list of the URL: an empty (falsy) URL yields none, a known-table match wins
in table order, and otherwise, when unknown pools are allowed, a synthesized
Custom Pool entry with the extracted hostname is returned. -/
def detect_pool_from_url (url : List Char) (allow_unknown : Bool) :
    Option PoolDetectResult :=
  if url.isEmpty then none
  else
    let url_lower := url.map Char.toLower
    match find_pool_match POOL_PATTERNS url_lower with
    | some (nm, e) => some ⟨nm, e.fee_percent, e.pool_type, e.default_port, true, false⟩
    | none =>
      if allow_unknown then
        some ⟨"Custom Pool (" ++ String.mk (extract_hostname url) ++ ")",
              2.5, "PPS", 3333, false, true⟩
      else none

theorem findSeg_append (seg a b : List Char) (hseg : seg ≠ []) :
    ∃ r, findSeg seg (a ++ (seg ++ b)) = some r ∧ b <:+ r := by
  induction a with
  | nil =>
    refine ⟨b, ?_, List.suffix_refl b⟩
    obtain ⟨c, cs, rfl⟩ : ∃ c cs, seg = c :: cs := by
      cases seg with
      | nil => exact absurd rfl hseg
      | cons c cs => exact ⟨c, cs, rfl⟩
    rw [List.nil_append, List.cons_append]
    simp only [findSeg]
    rw [if_pos (List.isPrefixOf_iff_prefix.mpr
      (by rw [← List.cons_append]; exact List.prefix_append _ b))]
    rw [← List.cons_append, List.drop_left]
  | cons c a ih =>
    rw [List.cons_append]
    by_cases hp : seg.isPrefixOf (c :: (a ++ (seg ++ b))) = true
    · refine ⟨(c :: (a ++ (seg ++ b))).drop seg.length, ?_, ?_⟩
      · simp only [findSeg]
        rw [if_pos hp]
      · have hbs : b <:+ c :: (a ++ (seg ++ b)) :=
          ⟨c :: (a ++ seg), by simp⟩
        have hds : (c :: (a ++ (seg ++ b))).drop seg.length <:+ c :: (a ++ (seg ++ b)) :=
          List.drop_suffix _ _
        refine List.suffix_of_suffix_length_le hbs hds ?_
        simp only [List.length_drop, List.length_cons, List.length_append]
        omega
    · obtain ⟨r, hr, hsuf⟩ := ih
      refine ⟨r, ?_, hsuf⟩
      simp only [findSeg]
      rw [if_neg hp]
      exact hr

theorem segsMatch_two_segments (s1 s2 mid pre post : List Char)
    (h1 : s1 ≠ []) (h2 : s2 ≠ []) :
    segsMatch [s1, s2] (pre ++ (s1 ++ (mid ++ (s2 ++ post)))) = true := by
  obtain ⟨r, hr, hsuf⟩ := findSeg_append s1 pre (mid ++ (s2 ++ post)) h1
  simp only [segsMatch, hr]
  obtain ⟨x, rfl⟩ := hsuf
  obtain ⟨r2, hr2, _⟩ := findSeg_append s2 (x ++ mid) post h2
  rw [List.append_assoc] at hr2
  simp only [hr2]

theorem find_pool_match_none (entries : List (String × PoolEntry)) (url : List Char)
    (h : ∀ p ∈ entries, entryMatches p.2 url = false) :
    find_pool_match entries url = none := by
  induction entries with
  | nil => rfl
  | cons e rest ih =>
    obtain ⟨nm, pe⟩ := e
    simp only [find_pool_match]
    rw [if_neg (by rw [h (nm, pe) (List.mem_cons_self _ _)]; exact Bool.false_ne_true)]
    exact ih fun p hp => h p (List.mem_cons_of_mem _ hp)

/-- C6 counterexample: the empty URL matches no pattern and unknown pools
are allowed, yet detect_pool_from_url returns none instead of a synthesized
Custom Pool entry, because the falsy-URL guard returns before the fallback. -/
theorem empty_url_detection_counterexample :
    (∀ p ∈ POOL_PATTERNS, entryMatches p.2 (([] : List Char).map Char.toLower) = false) ∧
    detect_pool_from_url [] true = none := by
  exact ⟨by decide, rfl⟩

/-- C6 amended: detection scans the pattern table in order and the first
match wins; any URL containing stratum.braiins.com resolves to Braiins Pool
with fee 2.5, payout model FPPS+ and port 3333; and every non-empty URL
matching no pattern, with unknown pools allowed, yields the synthesized
Custom Pool entry named after the extracted hostname with fee 2.5, model
PPS, port 3333 and the unknown flag set. -/
theorem pool_detection_braiins_and_fallback :
    (∀ pre post : List Char,
      detect_pool_from_url (pre ++ "stratum.braiins.com".data ++ post) true =
        some ⟨"Braiins Pool", 2.5, "FPPS+", 3333, true, false⟩) ∧
    (∀ url : List Char, url ≠ [] →
      (∀ p ∈ POOL_PATTERNS, entryMatches p.2 (url.map Char.toLower) = false) →
      detect_pool_from_url url true =
        some ⟨"Custom Pool (" ++ String.mk (extract_hostname url) ++ ")",
              2.5, "PPS", 3333, false, true⟩) := by
  constructor
  · intro pre post
    unfold detect_pool_from_url
    rw [if_neg (by simp)]
    have hlower : (pre ++ "stratum.braiins.com".data ++ post).map Char.toLower =
        pre.map Char.toLower ++ ("stratum".data ++
          (".".data ++ ("braiins.com".data ++ post.map Char.toLower))) := by
      simp only [List.map_append]
      rw [show "stratum.braiins.com".data.map Char.toLower =
            "stratum".data ++ (".".data ++ "braiins.com".data) from by decide]
      simp [List.append_assoc]
    rw [hlower]
    have hmatch : entryMatches ⟨[["stratum", "braiins.com"], [".braiins.com"]],
        2.5, "FPPS+", 3333⟩
        (pre.map Char.toLower ++ ("stratum".data ++
          (".".data ++ ("braiins.com".data ++ post.map Char.toLower)))) = true := by
      simp only [entryMatches, List.any_cons, Bool.or_eq_true, List.map]
      exact Or.inl (segsMatch_two_segments "stratum".data "braiins.com".data
        ".".data (pre.map Char.toLower) (post.map Char.toLower)
        (by decide) (by decide))
    show (match find_pool_match POOL_PATTERNS _ with
      | some (nm, e) => some (⟨nm, e.fee_percent, e.pool_type, e.default_port, true, false⟩ :
          PoolDetectResult)
      | none => _) = _
    rw [show POOL_PATTERNS = ("Braiins Pool",
      ⟨[["stratum", "braiins.com"], [".braiins.com"]], 2.5, "FPPS+", 3333⟩) ::
        POOL_PATTERNS.tail from rfl]
    unfold find_pool_match
    rw [if_pos hmatch]
  · intro url hne hnomatch
    unfold detect_pool_from_url
    rw [if_neg (by simp [List.isEmpty_iff, hne])]
    simp only [find_pool_match_none POOL_PATTERNS _ hnomatch, if_pos trivial]

/-- Witness for C6: the Braiins part of the amended statement applied at a
concrete stratum URL, and the fallback part applied at a concrete URL no
pattern matches, giving the synthesized Custom Pool entry for its host. -/
theorem pool_detection_braiins_and_fallback_witness :
    detect_pool_from_url
        ("stratum+tcp://".data ++ "stratum.braiins.com".data ++ ":3333".data) true =
      some ⟨"Braiins Pool", 2.5, "FPPS+", 3333, true, false⟩ ∧
    detect_pool_from_url "stratum+tcp://myweirdpool.example:3333".data true =
      some ⟨"Custom Pool (" ++
            String.mk (extract_hostname "stratum+tcp://myweirdpool.example:3333".data) ++ ")",
            2.5, "PPS", 3333, false, true⟩ :=
  ⟨pool_detection_braiins_and_fallback.1 "stratum+tcp://".data ":3333".data,
   pool_detection_braiins_and_fallback.2 "stratum+tcp://myweirdpool.example:3333".data
     (by decide) (by decide)⟩

/-- Substring containment test for the Python in checks on strings, written
over the character lists so that it evaluates by kernel reduction. -/
def strContains (hay pat : String) : Bool := (findSeg pat.data hay.data).isSome

/-- Body of config.get_thermal_profile_key from config.py over the already
uppercased type string: ordered substring checks, most specific device names
first. -/
def thermal_key_of_upper (u : String) : String :=
  if strContains u "NERDOCTAXE" || strContains u "OCTAXE" then "NerdOctaxe"
  else if strContains u "NERDQAXE++" || strContains u "QAXE++" then "NerdQAxePP"
  else if strContains u "NERDQAXE" || strContains u "QAXE" then "NerdQAxe"
  else if strContains u "NERDAXE" then "NerdAxe"
  else if strContains u "HEX" then "BitAxeHex"
  else if strContains u "GAMMA" || strContains u "BM1370" then "BitAxeGamma"
  else if strContains u "SUPRA" || strContains u "BM1368" then "BitAxeSupra"
  else if strContains u "ULTRA" || strContains u "BM1366" then "BitAxeUltra"
  else if strContains u "MAX" || strContains u "BM1397" then "BitAxeMax"
  else if strContains u "BITAXE" then "BitAxe"
  else if strContains u "LUCKYMINER" || strContains u "LUCKY" then "LuckyMiner"
  else if strContains u "ANTMINER" then "Antminer"
  else if strContains u "WHATSMINER" then "Whatsminer"
  else if strContains u "NANO3S" || strContains u "NANO 3S" then "AvalonNano3s"
  else if strContains u "AVALON" then "Avalon"
  else "Unknown"

/-- config.get_thermal_profile_key from config.py. -/
def get_thermal_profile_key (miner_type : String) : String :=
  thermal_key_of_upper (pyUpper miner_type)

/-- ESP_MINER_TYPES from config.py. -/
def ESP_MINER_TYPES : List String :=
  ["BITAXE", "BITAXE_MAX", "BITAXE_ULTRA", "BITAXE_SUPRA", "BITAXE_GAMMA",
   "NERDAXE", "NERDQAXE_PLUS", "NERDQAXE_PLUSPLUS", "NERDOCTAXE", "LUCKYMINER"]

/-- config.is_esp_miner from config.py: type-key membership, else a brand
fragment substring check against the uppercased free-text type. -/
def is_esp_miner (miner_type : String) : Bool :=
  decide (miner_type ∈ ESP_MINER_TYPES) ||
  (["BITAXE", "NERDAXE", "NERDQAXE", "NERDOCTAXE", "LUCKYMINER"].any fun nm =>
    strContains (pyUpper miner_type) nm)

/-- ThermalManager._get_profile from thermal.py: profile for a type string. -/
def get_profile (miner_type : String) : FrequencyProfile :=
  minerProfilesGet (get_thermal_profile_key miner_type)

/-- FleetManager._validate_frequency from app.py: clamp a requested
frequency into the device-safe range of the thermal profile. -/
def validate_frequency (miner_type : String) (freq : Int) : Int :=
  let profile := get_profile miner_type
  max profile.min_freq (min profile.max_freq freq)

/-- FleetManager._apply_frequency from app.py, modelled as the frequency
value the call sends to the device: none when the device type is not
ESP-Miner based (frequency control unsupported, no settings call is made),
some v when apply_settings is called with frequency v.  A thermal target of
0 (emergency shutdown) is replaced by the hard-coded minimum safe 400 MHz;
any other target is clamped by _validate_frequency. -/
def apply_frequency (miner_type : String) (target_freq : Int) : Option Int :=
  if is_esp_miner miner_type then
    if target_freq = 0 then some 400
    else some (validate_frequency miner_type target_freq)
  else none

theorem runtime_profile_min_freq_of_upper (u : String) :
    (minerProfilesGet (thermal_key_of_upper u)).min_freq = 400 := by
  unfold thermal_key_of_upper
  by_cases h1 : (strContains u "NERDOCTAXE" || strContains u "OCTAXE") = true
  · simp only [h1, if_true]; rfl
  rw [Bool.not_eq_true] at h1
  simp only [h1, Bool.false_eq_true, if_false]
  by_cases h2 : (strContains u "NERDQAXE++" || strContains u "QAXE++") = true
  · simp only [h2, if_true]; rfl
  rw [Bool.not_eq_true] at h2
  simp only [h2, Bool.false_eq_true, if_false]
  by_cases h3 : (strContains u "NERDQAXE" || strContains u "QAXE") = true
  · simp only [h3, if_true]; rfl
  rw [Bool.not_eq_true] at h3
  simp only [h3, Bool.false_eq_true, if_false]
  by_cases h4 : strContains u "NERDAXE" = true
  · simp only [h4, if_true]; rfl
  rw [Bool.not_eq_true] at h4
  simp only [h4, Bool.false_eq_true, if_false]
  by_cases h5 : strContains u "HEX" = true
  · simp only [h5, if_true]; rfl
  rw [Bool.not_eq_true] at h5
  simp only [h5, Bool.false_eq_true, if_false]
  by_cases h6 : (strContains u "GAMMA" || strContains u "BM1370") = true
  · simp only [h6, if_true]; rfl
  rw [Bool.not_eq_true] at h6
  simp only [h6, Bool.false_eq_true, if_false]
  by_cases h7 : (strContains u "SUPRA" || strContains u "BM1368") = true
  · simp only [h7, if_true]; rfl
  rw [Bool.not_eq_true] at h7
  simp only [h7, Bool.false_eq_true, if_false]
  by_cases h8 : (strContains u "ULTRA" || strContains u "BM1366") = true
  · simp only [h8, if_true]; rfl
  rw [Bool.not_eq_true] at h8
  simp only [h8, Bool.false_eq_true, if_false]
  by_cases h9 : (strContains u "MAX" || strContains u "BM1397") = true
  · simp only [h9, if_true]; rfl
  rw [Bool.not_eq_true] at h9
  simp only [h9, Bool.false_eq_true, if_false]
  by_cases h10 : strContains u "BITAXE" = true
  · simp only [h10, if_true]; rfl
  rw [Bool.not_eq_true] at h10
  simp only [h10, Bool.false_eq_true, if_false]
  by_cases h11 : (strContains u "LUCKYMINER" || strContains u "LUCKY") = true
  · simp only [h11, if_true]; rfl
  rw [Bool.not_eq_true] at h11
  simp only [h11, Bool.false_eq_true, if_false]
  by_cases h12 : strContains u "ANTMINER" = true
  · simp only [h12, if_true]; rfl
  rw [Bool.not_eq_true] at h12
  simp only [h12, Bool.false_eq_true, if_false]
  by_cases h13 : strContains u "WHATSMINER" = true
  · simp only [h13, if_true]; rfl
  rw [Bool.not_eq_true] at h13
  simp only [h13, Bool.false_eq_true, if_false]
  by_cases h14 : (strContains u "NANO3S" || strContains u "NANO 3S") = true
  · simp only [h14, if_true]; rfl
  rw [Bool.not_eq_true] at h14
  simp only [h14, Bool.false_eq_true, if_false]
  by_cases h15 : strContains u "AVALON" = true
  · simp only [h15, if_true]; rfl
  rw [Bool.not_eq_true] at h15
  simp only [h15, Bool.false_eq_true, if_false]
  rfl

theorem runtime_profile_min_freq (s : String) :
    (minerProfilesGet (get_thermal_profile_key s)).min_freq = 400 :=
  runtime_profile_min_freq_of_upper (pyUpper s)

/-- C9: a thermal target frequency of 0 for an ESP-Miner device is applied
as the hard-coded 400 MHz minimum, and each frequency actually sent to a
device through the thermal path is at least 400 MHz and never 0 (every
runtime thermal profile has a 400 MHz minimum and the non-zero path clamps
into the profile range, while non-ESP devices receive no call at all). -/
theorem apply_frequency_never_commands_zero (t : String) :
    (is_esp_miner t = true → apply_frequency t 0 = some 400) ∧
    (∀ f v : Int, apply_frequency t f = some v → 400 ≤ v ∧ v ≠ 0) := by
  constructor
  · intro hesp
    unfold apply_frequency
    rw [if_pos hesp, if_pos rfl]
  · intro f v h
    unfold apply_frequency at h
    by_cases hesp : is_esp_miner t = true
    · rw [if_pos hesp] at h
      by_cases hf : f = 0
      · rw [if_pos hf] at h
        obtain rfl : (400 : Int) = v := Option.some.inj h
        exact ⟨le_refl _, by decide⟩
      · rw [if_neg hf] at h
        obtain rfl : validate_frequency t f = v := Option.some.inj h
        have hmin : (get_profile t).min_freq = 400 := runtime_profile_min_freq t
        have : (get_profile t).min_freq ≤ validate_frequency t f := le_max_left _ _
        rw [hmin] at this
        exact ⟨this, by omega⟩
    · rw [if_neg hesp] at h
      exact absurd h (by simp)

/-- Witness for C9: a thermal emergency target of 0 for a BitAxe Gamma is
sent to the device as 400 MHz, which is at least 400 and non-zero. -/
theorem apply_frequency_never_commands_zero_witness :
    apply_frequency "BitAxe Gamma" 0 = some 400 ∧ (400 : Int) ≤ 400 ∧ (400 : Int) ≠ 0 :=
  ⟨(apply_frequency_never_commands_zero "BitAxe Gamma").1 (by decide),
   (apply_frequency_never_commands_zero "BitAxe Gamma").2 0 400
     ((apply_frequency_never_commands_zero "BitAxe Gamma").1 (by decide))⟩

/-- Sparse settings map of a batch settings request: the keys the handler
validates, plus a carrier for any further keys it passes through untouched
(Python JSON integer values). -/
structure BatchSettings where
  frequency : Option Int
  coreVoltage : Option Int
  fanSpeed : Option Int
  fanspeed : Option Int
  other : List (String × Int)
deriving DecidableEq

/-- Python falsiness of the settings dict: empty when it has no key at all. -/
def BatchSettings.isEmptyMap (s : BatchSettings) : Bool :=
  s.frequency.isNone && s.coreVoltage.isNone && s.fanSpeed.isNone &&
    s.fanspeed.isNone && s.other.isEmpty

/-- The distinct 400 error bodies batch_settings can answer before touching
any miner. -/
inductive BatchError where
  | noMiners
  | noSettings
  | frequencyOutOfRange
  | voltageOutOfRange
  | fanOutOfRange
deriving DecidableEq

/-- Response of the batch_settings handler: either a 400 rejection issued
before the per-miner loop (carrying no device calls and no per-miner
results), or the loop outcome with the settings applied per contacted miner
and the per-miner failure list. -/
inductive BatchResponse where
  | rejected (err : BatchError)
  | ok (calls : List (String × BatchSettings)) (failed : List String)
deriving DecidableEq

/-- The device calls a response carries: none for a rejection. -/
def BatchResponse.deviceCalls : BatchResponse → List (String × BatchSettings)
  | .rejected _ => []
  | .ok calls _ => calls

/-- The batch_settings endpoint of app.py: empty-request guards, then the
three range validations (frequency 100 to 1000, core voltage 800 to 1400,
fan speed 0 to 100, with fanSpeed taking precedence over fanspeed and a
default of 50), and only then the per-miner loop, which contacts a known
ESP-Miner device with the frequency clamped by _validate_frequency and
reports every other requested address in the failed list.  The fleet is the
miner registry as an address-to-type map. -/
def batch_settings (ips : List String) (settings : BatchSettings)
    (fleet : List (String × String)) : BatchResponse :=
  if ips.isEmpty then .rejected .noMiners
  else if settings.isEmptyMap then .rejected .noSettings
  else if (match settings.frequency with
           | some f => f < 100 || f > 1000
           | none => false) then .rejected .frequencyOutOfRange
  else if (match settings.coreVoltage with
           | some v => v < 800 || v > 1400
           | none => false) then .rejected .voltageOutOfRange
  else if ((settings.fanSpeed.isSome || settings.fanspeed.isSome) &&
           (let fan := settings.fanSpeed.getD (settings.fanspeed.getD 50)
            fan < 0 || fan > 100)) then .rejected .fanOutOfRange
  else
    .ok
      (ips.filterMap fun ip =>
        match dictGet fleet ip with
        | some ty =>
          if is_esp_miner ty then
            some (ip, { settings with
              frequency := settings.frequency.map (validate_frequency ty) })
          else none
        | none => none)
      (ips.filter fun ip =>
        match dictGet fleet ip with
        | some ty => !is_esp_miner ty
        | none => true)

/-- C8: a batch settings request whose map carries a frequency outside 100
to 1000 MHz, a core voltage outside 800 to 1400 mV, or a fan speed outside 0
to 100 percent (the fanSpeed key taking precedence over fanspeed) is
rejected as a whole with a 400 response issued before the per-miner loop:
no device call is made and no per-miner result is produced. -/
theorem batch_settings_safety_gate (ips : List String) (settings : BatchSettings)
    (fleet : List (String × String))
    (hviol :
      (∃ f, settings.frequency = some f ∧ (f < 100 ∨ 1000 < f)) ∨
      (∃ v, settings.coreVoltage = some v ∧ (v < 800 ∨ 1400 < v)) ∨
      ((settings.fanSpeed.isSome ∨ settings.fanspeed.isSome) ∧
        (settings.fanSpeed.getD (settings.fanspeed.getD 50) < 0 ∨
         100 < settings.fanSpeed.getD (settings.fanspeed.getD 50)))) :
    ∃ e, batch_settings ips settings fleet = BatchResponse.rejected e ∧
      (batch_settings ips settings fleet).deviceCalls = [] := by
  unfold batch_settings
  split_ifs with h1 h2 h3 h4 h5
  · exact ⟨_, rfl, rfl⟩
  · exact ⟨_, rfl, rfl⟩
  · exact ⟨_, rfl, rfl⟩
  · exact ⟨_, rfl, rfl⟩
  · exact ⟨_, rfl, rfl⟩
  · exfalso
    rcases hviol with ⟨f, hf, hr⟩ | ⟨v, hv, hr⟩ | ⟨hsome, hr⟩
    · rw [hf] at h3
      simp only [Bool.or_eq_true, decide_eq_true_eq] at h3
      rcases hr with hr | hr
      · exact h3 (Or.inl (by simpa using hr))
      · exact h3 (Or.inr (by simpa using hr))
    · rw [hv] at h4
      simp only [Bool.or_eq_true, decide_eq_true_eq] at h4
      rcases hr with hr | hr
      · exact h4 (Or.inl (by simpa using hr))
      · exact h4 (Or.inr (by simpa using hr))
    · apply h5
      simp only [Bool.and_eq_true, Bool.or_eq_true, decide_eq_true_eq]
      constructor
      · rcases hsome with hs | hs
        · exact Or.inl (by simpa using hs)
        · exact Or.inr (by simpa using hs)
      · rcases hr with hr | hr
        · exact Or.inl (by simpa using hr)
        · exact Or.inr (by simpa using hr)

/-- Witness for C8: a batch over one known BitAxe with a requested frequency
of 1500 MHz is rejected whole, with no device call recorded. -/
theorem batch_settings_safety_gate_witness :
    ∃ e, batch_settings ["10.0.0.5"] ⟨some 1500, none, none, none, []⟩
        [("10.0.0.5", "BitAxe")] = BatchResponse.rejected e ∧
      (batch_settings ["10.0.0.5"] ⟨some 1500, none, none, none, []⟩
        [("10.0.0.5", "BitAxe")]).deviceCalls = [] :=
  batch_settings_safety_gate ["10.0.0.5"] ⟨some 1500, none, none, none, []⟩
    [("10.0.0.5", "BitAxe")] (Or.inl ⟨1500, rfl, Or.inr (by decide)⟩)

end DirtySats
